import Mathlib

set_option maxRecDepth 8192

/-!
Verification of the CV_Creator repository against its specification.

The repository has three Python scripts:
* `generate.py` — renders a docx template and then removes visually empty
  paragraphs that carry no structurally significant break, and saves the
  result under a timestamped filename;
* `tailor_cv.py` — assembles a prompt, calls a model, coerces the model
  output to JSON with one bounded repair pass, and writes the record;
* `update_from_linkedin.py` — same coercion idea for LinkedIn profile text.

Pure fragments of those scripts are embedded below as Lean functions.
External collaborators (HTTP fetch, the model call, the filesystem, the
clock) are passed in as explicit parameters, mirroring the spec's view of
them as opaque functions.
-/

namespace CVCreator

/-! ### Python string primitives used by the scripts -/

/-- Whitespace recognised by Python `str.strip()` (the ASCII subset, which
is all that the inputs in question contain). -/
def pyIsSpace (c : Char) : Bool :=
  c == ' ' || c == '\t' || c == '\n' || c == '\r' || c == '\x0b' || c == '\x0c'

/-- Python `s.strip()`: remove leading and trailing whitespace. -/
def pyStrip (s : String) : String :=
  ⟨((s.data.dropWhile pyIsSpace).reverse.dropWhile pyIsSpace).reverse⟩

/-- Python `s.strip("\x60")` as used in both coercion routines: remove all
leading and trailing backtick characters. -/
def stripBackticks (s : String) : String :=
  ⟨((s.data.dropWhile (· == '\x60')).reverse.dropWhile (· == '\x60')).reverse⟩

/-! ### The document tree (`generate.py`)

`python-docx` exposes a paragraph's XML: `p._p.pPr` is the optional
paragraph-properties element, whose optional `sectPr` child marks a
section break, and `.//w:br` descendants are explicit break runs whose
`w:type` attribute is `"page"`, `"column"`, or something else
(`"textWrapping"` for a line break, or absent). A document / table cell
holds a sequence of paragraphs and tables; a table has rows of cells. -/

/-- The `w:pPr` paragraph-properties element: we track only the child the
code inspects, the optional `w:sectPr` section-break element. -/
structure PPr where
  sectPr : Option Unit
deriving DecidableEq

/-- A paragraph: its visible text, its optional `pPr` element, and the
`w:type` attributes of its `w:br` descendants in document order (`none`
when the attribute is absent). -/
structure Paragraph where
  text : String
  pPr : Option PPr
  brs : List (Option String)
deriving DecidableEq

/-- Body content of a document or of a table cell, in document order. A
table is a list of rows; a row is a list of cells; a cell is again a list
of paragraphs and tables. -/
inductive Block where
  | para (p : Paragraph)
  | table (rows : List (List (List Block)))

/-- `generate.py` `has_section_break`: `pPr` exists and has a `sectPr`. -/
def has_section_break (p : Paragraph) : Bool :=
  match p.pPr with
  | none => false
  | some pr => pr.sectPr.isSome

/-- The test `br_type in ('page', 'column')` applied to one `w:br`. -/
def is_page_or_column (brType : Option String) : Bool :=
  brType == some "page" || brType == some "column"

/-- `generate.py` `has_page_or_column_break`: some `w:br` descendant has
type `page` or `column`. -/
def has_page_or_column_break (p : Paragraph) : Bool :=
  p.brs.any is_page_or_column

/-- `generate.py` `is_effectively_empty`: blank text and neither kind of
structurally significant break. -/
def is_effectively_empty (p : Paragraph) : Bool :=
  (pyStrip p.text == "") && !has_section_break p && !has_page_or_column_break p

/-! The cleanup loop

```python
for p in list(iter_paragraphs(docx_doc)):
    if is_effectively_empty(p):
        delete_paragraph(p)
```

first lists every paragraph reachable from the body or from any table
cell, then deletes the effectively-empty ones from their parent elements.
Each paragraph is judged only by its own content, and `delete_paragraph`
removes exactly that paragraph from its parent, so the resulting tree is
the recursive filter below: at every level the effectively-empty
paragraphs disappear and everything else stays, in order. -/

mutual

/-- Effect of the cleanup loop of `generate.py` on one container's block
sequence. -/
def cleanBlocks : List Block → List Block
  | [] => []
  | Block.para p :: bs =>
      if is_effectively_empty p then cleanBlocks bs
      else Block.para p :: cleanBlocks bs
  | Block.table rows :: bs => Block.table (cleanTable rows) :: cleanBlocks bs

/-- Cleanup inside a table's rows. -/
def cleanTable : List (List (List Block)) → List (List (List Block))
  | [] => []
  | row :: rows => cleanRow row :: cleanTable rows

/-- Cleanup inside a row's cells. -/
def cleanRow : List (List Block) → List (List Block)
  | [] => []
  | cell :: cells => cleanBlocks cell :: cleanRow cells

end

/-- The paragraph children of a container, in order, without entering
tables: `getattr(obj, 'paragraphs', [])`. -/
def levelParas : List Block → List Paragraph
  | [] => []
  | Block.para p :: bs => p :: levelParas bs
  | Block.table _ :: bs => levelParas bs

mutual

/-- `generate.py` `iter_paragraphs`: every paragraph of the container
itself, followed by the paragraphs of each table cell, recursively. -/
def iter_paragraphs (bs : List Block) : List Paragraph :=
  levelParas bs ++ iterTables bs
termination_by (sizeOf bs, 1)

/-- Paragraphs reached through the container's tables
(`for t in getattr(obj, 'tables', [])`). -/
def iterTables : List Block → List Paragraph
  | [] => []
  | Block.para _ :: bs => iterTables bs
  | Block.table rows :: bs => iterRows rows ++ iterTables bs
termination_by bs => (sizeOf bs, 0)

/-- Paragraphs of a table, row by row (`for row in t.rows`). -/
def iterRows : List (List (List Block)) → List Paragraph
  | [] => []
  | row :: rows => iterCells row ++ iterRows rows
termination_by rows => (sizeOf rows, 0)

/-- Paragraphs of a row, cell by cell (`for cell in row.cells`), each cell
enumerated like a document body. -/
def iterCells : List (List Block) → List Paragraph
  | [] => []
  | cell :: cells => iter_paragraphs cell ++ iterCells cells
termination_by cells => (sizeOf cells, 0)

end

/-- How many paragraphs equal to `p` the tree reaches (through
`iter_paragraphs`). -/
def countPara (p : Paragraph) (bs : List Block) : Nat :=
  (iter_paragraphs bs).count p

/-! ### A model of Python `json.loads`

Both scripts coerce model output with `json.loads`, which accepts strict
JSON (RFC 8259): optional whitespace around tokens, one top-level value,
and an error on anything else (including any text left over).  The model
below follows that grammar; numbers are kept as their lexemes (the resume
record contains no numbers), and `\uXXXX` escapes are mapped through
`Char.ofNat` without surrogate-pair combination. -/

/-- A parsed JSON value. Object members keep their order. -/
inductive Json where
  | obj (fields : List (String × Json))
  | arr (items : List Json)
  | str (text : String)
  | num (lexeme : String)
  | bool (value : Bool)
  | null

/-- The whitespace the JSON grammar allows between tokens: space, tab,
line feed, carriage return. -/
def jsonWsChar (c : Char) : Bool :=
  let n := c.toNat
  n == 32 || n == 9 || n == 10 || n == 13

/-- Skip inter-token whitespace. -/
def skipWs (s : List Char) : List Char :=
  s.dropWhile jsonWsChar

/-- Value of one hexadecimal digit, if it is one (`0-9`, `a-f`, `A-F`
by code point). -/
def hexDigit (c : Char) : Option Nat :=
  let n := c.toNat
  if 48 ≤ n && n ≤ 57 then some (n - 48)
  else if 97 ≤ n && n ≤ 102 then some (n - 87)
  else if 65 ≤ n && n ≤ 70 then some (n - 55)
  else none

/-- The single-character JSON string escapes
(`\" \\ \/ \b \f \n \r \t`). -/
def escChar : Char → Option Char
  | '"' => some '"'
  | '\\' => some '\\'
  | '/' => some '/'
  | 'b' => some (Char.ofNat 8)
  | 'f' => some (Char.ofNat 12)
  | 'n' => some '\n'
  | 'r' => some (Char.ofNat 13)
  | 't' => some '\t'
  | _ => none

/-- Parse the body of a JSON string after its opening quote; returns the
decoded characters and the input after the closing quote. -/
def parseStringBody : Nat → List Char → Option (List Char × List Char)
  | 0, _ => none
  | _ + 1, [] => none
  | fuel + 1, c :: rest =>
    if c == '"' then some ([], rest)
    else if c == '\\' then
      match rest with
      | [] => none
      | e :: rest2 =>
        if e == 'u' then
          match rest2 with
          | h1 :: h2 :: h3 :: h4 :: rest3 =>
            match hexDigit h1, hexDigit h2, hexDigit h3, hexDigit h4 with
            | some a, some b, some c3, some d =>
                (parseStringBody fuel rest3).map
                  (fun r => (Char.ofNat (((a * 16 + b) * 16 + c3) * 16 + d) :: r.1, r.2))
            | _, _, _, _ => none
          | _ => none
        else
          match escChar e with
          | some ec => (parseStringBody fuel rest2).map (fun r => (ec :: r.1, r.2))
          | none => none
    else if c.toNat < 0x20 then none
    else (parseStringBody fuel rest).map (fun r => (c :: r.1, r.2))

/-- Scan an optional fraction part `.digits`. -/
def scanFrac : List Char → List Char × List Char
  | '.' :: c :: rest =>
      if c.isDigit then
        let (ds, r) := (c :: rest).span (·.isDigit)
        ('.' :: ds, r)
      else ([], '.' :: c :: rest)
  | s => ([], s)

/-- Scan an optional exponent part `(e|E)(+|-)?digits`. -/
def scanExp : List Char → List Char × List Char
  | e :: rest =>
    if e == 'e' || e == 'E' then
      match rest with
      | c :: rest2 =>
        if c == '+' || c == '-' then
          match rest2 with
          | d :: _ =>
              if d.isDigit then
                let (ds, r) := rest2.span (·.isDigit)
                (e :: c :: ds, r)
              else ([], e :: rest)
          | [] => ([], e :: rest)
        else if c.isDigit then
          let (ds, r) := rest.span (·.isDigit)
          (e :: ds, r)
        else ([], e :: rest)
      | [] => ([], e :: rest)
    else ([], e :: rest)
  | [] => ([], [])

/-- Parse a JSON number at the head of the input; the integer part is `0`
or starts with a nonzero digit, as in the RFC grammar. -/
def parseNumber (s : List Char) : Option (Json × List Char) :=
  let (sign, s1) : List Char × List Char :=
    match s with
    | '-' :: rest => (['-'], rest)
    | _ => ([], s)
  match s1 with
  | '0' :: rest =>
      let (frac, r1) := scanFrac rest
      let (ex, r2) := scanExp r1
      some (Json.num ⟨sign ++ '0' :: (frac ++ ex)⟩, r2)
  | c :: _ =>
      if c.isDigit then
        let (ds, rest) := s1.span (·.isDigit)
        let (frac, r1) := scanFrac rest
        let (ex, r2) := scanExp r1
        some (Json.num ⟨sign ++ ds ++ frac ++ ex⟩, r2)
      else none
  | [] => none

mutual

/-- Parse one JSON value at the head of the input. -/
def parseValue : Nat → List Char → Option (Json × List Char)
  | 0, _ => none
  | fuel + 1, s =>
    match s with
    | [] => none
    | '"' :: rest => (parseStringBody rest.length rest).map (fun r => (Json.str ⟨r.1⟩, r.2))
    | '\x7b' :: rest =>
        let s1 := skipWs rest
        match s1 with
        | '\x7d' :: rest2 => some (Json.obj [], rest2)
        | _ => (parseMembers fuel s1).map (fun r => (Json.obj r.1, r.2))
    | '[' :: rest =>
        let s1 := skipWs rest
        match s1 with
        | ']' :: rest2 => some (Json.arr [], rest2)
        | _ => (parseElems fuel s1).map (fun r => (Json.arr r.1, r.2))
    | c :: _ =>
        if "true".data.isPrefixOf s then some (Json.bool true, s.drop 4)
        else if "false".data.isPrefixOf s then some (Json.bool false, s.drop 5)
        else if "null".data.isPrefixOf s then some (Json.null, s.drop 4)
        else if c == '-' || c.isDigit then parseNumber s
        else none

/-- Parse the members of an object, positioned at the first key. -/
def parseMembers : Nat → List Char → Option (List (String × Json) × List Char)
  | 0, _ => none
  | fuel + 1, s =>
    match s with
    | '"' :: rest =>
      match parseStringBody rest.length rest with
      | none => none
      | some (key, rest2) =>
        match skipWs rest2 with
        | ':' :: rest3 =>
          match parseValue fuel (skipWs rest3) with
          | none => none
          | some (v, rest4) =>
            match skipWs rest4 with
            | ',' :: rest5 =>
                (parseMembers fuel (skipWs rest5)).map (fun r => ((⟨key⟩, v) :: r.1, r.2))
            | '\x7d' :: rest5 => some ([(⟨key⟩, v)], rest5)
            | _ => none
        | _ => none
    | _ => none

/-- Parse the elements of an array, positioned at the first element. -/
def parseElems : Nat → List Char → Option (List Json × List Char)
  | 0, _ => none
  | fuel + 1, s =>
    match parseValue fuel s with
    | none => none
    | some (v, rest) =>
      match skipWs rest with
      | ',' :: rest2 => (parseElems fuel (skipWs rest2)).map (fun r => (v :: r.1, r.2))
      | ']' :: rest2 => some ([v], rest2)
      | _ => none

end

/-- `json.loads`: exactly one JSON value, surrounded only by whitespace.
The recursion depth of a parse is bounded by the input length, so
`length + 1` units of fuel never run out. -/
def json_loads (s : String) : Option Json :=
  match parseValue (s.data.length + 1) (skipWs s.data) with
  | some (v, rest) => if (skipWs rest).isEmpty then some v else none
  | none => none

/-! ### Schema coercion (`tailor_cv.py` main, `update_from_linkedin.py`
`call_openai_to_schema`)

Both scripts try `json.loads` on the model output and, on failure, retry
once on `output_text.strip().strip("\x60")`. -/

/-- A `sys.exit(code)` after printing `message` to stderr. -/
structure ExitError where
  code : Nat
  message : String
deriving DecidableEq

/-- The stderr diagnostic of `tailor_cv.py` when both parses fail:
`print("Model did not return valid JSON. Raw output:\n", output_text)`
joins its arguments with a single space. -/
def unparseable_diagnostic (output_text : String) : String :=
  "Model did not return valid JSON. Raw output:\n " ++ output_text

/-- The coercion step of `tailor_cv.py` `main` (lines 97–107): parse, on
failure strip whitespace then backticks and parse once more, and on a
second failure print the diagnostic with the original output and
`sys.exit(5)`. -/
def coerce_tailor (output_text : String) : Except ExitError Json :=
  match json_loads output_text with
  | some parsed => Except.ok parsed
  | none =>
    let cleaned := stripBackticks (pyStrip output_text)
    match json_loads cleaned with
    | some parsed => Except.ok parsed
    | none => Except.error ⟨5, unparseable_diagnostic output_text⟩

/-- The coercion step of `update_from_linkedin.py`
`call_openai_to_schema` (lines 76–82): the retry `json.loads(cleaned)` is
outside any handler, so a second failure raises `json.JSONDecodeError`
uncaught; the exception's document is the *cleaned* text and its printed
message carries only position information, so the error value here is the
cleaned text that was being parsed. -/
def coerce_linkedin (content : String) : Except String Json :=
  match json_loads content with
  | some v => Except.ok v
  | none =>
    let cleaned := stripBackticks (pyStrip content)
    match json_loads cleaned with
    | some v => Except.ok v
    | none => Except.error cleaned

/-! ### Prompt assembly (`tailor_cv.py` `build_prompt`) -/

/-- Python `sub in s`: scan every suffix for `sub` as a prefix. -/
def hasSubstrAux (pat : List Char) : List Char → Bool
  | [] => pat.isPrefixOf []
  | c :: rest => pat.isPrefixOf (c :: rest) || hasSubstrAux pat rest

/-- Python's substring test `sub in s`. -/
def containsSubstr (s sub : String) : Bool :=
  hasSubstrAux sub.data s.data

/-- One step of Python `str.replace`: scan left to right; at a match,
emit the replacement and continue after the matched occurrence. The fuel
is the remaining input length, and every step consumes at least one
character when the pattern is nonempty. -/
def replaceFuel (pat rep : List Char) : Nat → List Char → List Char
  | 0, s => s
  | _ + 1, [] => []
  | fuel + 1, c :: rest =>
      if pat.isPrefixOf (c :: rest) && !pat.isEmpty then
        rep ++ replaceFuel pat rep fuel ((c :: rest).drop pat.length)
      else c :: replaceFuel pat rep fuel rest

/-- Python `s.replace(pat, rep)`: replace every (left-to-right,
non-overlapping) occurrence. (For the empty pattern Python interleaves
`rep` between characters; the scripts only ever replace the two fixed
nonempty placeholder strings, for which this model is exact.) -/
def listReplace (s pat rep : List Char) : List Char :=
  replaceFuel pat rep s.length s

/-- `str.replace` on `String`. -/
def str_replace (s old new : String) : String :=
  ⟨listReplace s.data old.data new.data⟩

/-- The recognised job-spec section marker. -/
def markerA : String := "===== INPUT A: JOB_SPEC ====="

/-- The recognised CV section marker. -/
def markerB : String := "===== INPUT B: CV_MD ====="

/-- The job-spec placeholder token replaced inside the template. -/
def placeholderJobSpec : String := "[PASTE FULL JOB SPEC OR RECRUITER EMAIL HERE]"

/-- The CV placeholder token replaced inside the template. -/
def placeholderCv : String := "[PASTE YOUR MARKDOWN CV HERE]"

/-- `tailor_cv.py` `build_prompt` (lines 43–48): if both section markers
occur in the template, substitute the two placeholder tokens; otherwise
append both inputs after the template between fixed sentinel lines. -/
def build_prompt (template job_spec cv_md : String) : String :=
  if containsSubstr template markerA && containsSubstr template markerB then
    str_replace (str_replace template placeholderJobSpec job_spec) placeholderCv cv_md
  else
    template ++ "\n\n===== INPUT A: JOB_SPEC =====\n" ++ job_spec ++
      "\n===== END INPUT A =====\n\n===== INPUT B: CV_MD =====\n" ++ cv_md ++
      "\n===== END INPUT B =====\n"

/-! ### Timestamped persister (`generate.py` lines 52–63) -/

/-- A civil date-time as `datetime.strftime` sees it. -/
structure PlainDateTime where
  year : Nat
  month : Nat
  day : Nat
  hour : Nat
  minute : Nat
  second : Nat

/-- Two-digit zero padding (`%m`, `%d`, `%H`, `%M`, `%S`). -/
def pad2 (n : Nat) : String :=
  if n < 10 then "0" ++ toString n else toString n

/-- Four-digit zero padding (`%Y`). -/
def pad4 (n : Nat) : String :=
  if n < 10 then "000" ++ toString n
  else if n < 100 then "00" ++ toString n
  else if n < 1000 then "0" ++ toString n
  else toString n

/-- `now.strftime("%Y%m%d-%H%M%S")`. -/
def strftime_stamp (t : PlainDateTime) : String :=
  pad4 t.year ++ pad2 t.month ++ pad2 t.day ++ "-" ++
    pad2 t.hour ++ pad2 t.minute ++ pad2 t.second

/-- The `try`/`except` around `zoneinfo`: with timezone data available,
`now` is the current civil time in `Europe/London`; on any failure the
naive UTC clock `datetime.utcnow()` is used instead. Both clock readings
are parameters — the scripts' only access to time. -/
def now_for_stamp (zoneinfo_available : Bool) (londonNow utcNow : PlainDateTime) : PlainDateTime :=
  if zoneinfo_available then londonNow else utcNow

/-- The saved filename `f"CV_Customized_\x7bstamp\x7d.docx"`. -/
def out_file (zoneinfo_available : Bool) (londonNow utcNow : PlainDateTime) : String :=
  "CV_Customized_" ++ strftime_stamp (now_for_stamp zoneinfo_available londonNow utcNow) ++ ".docx"

/-! ### Process exit codes -/

/-- The failure classes named by the specification. -/
inductive FailureClass where
  | readFailure
  | fetchFailure
  | missingCredential
  | emptyModelResponse
  | unparseableOutput
  | pdfFailure
deriving DecidableEq, Fintype

/-- Exit codes a `tailor_cv.py` run can end with, per failure class:
`read_text` exits 1, `fetch_job_spec` exits 2, `load_api_key` exits 3,
an empty model response exits 4, unparseable model output exits 5; the
script never reads a PDF, so that class cannot occur. -/
def tailor_exit_codes : FailureClass → List Nat
  | .readFailure => [1]
  | .fetchFailure => [2]
  | .missingCredential => [3]
  | .emptyModelResponse => [4]
  | .unparseableOutput => [5]
  | .pdfFailure => []

/-- Exit codes an `update_from_linkedin.py` run can end with, per failure
class: `read_text_file` exits 1, `fetch_url` exits 2, `read_pdf_text`
exits 3 (pypdf missing) or 4 (extraction error), a missing credential
exits 5. An empty model response makes `json.loads("")` raise, and
unparseable output makes the retry `json.loads(cleaned)` raise; both
exceptions are uncaught, and CPython terminates a run with an uncaught
exception with status 1. -/
def linkedin_exit_codes : FailureClass → List Nat
  | .readFailure => [1]
  | .fetchFailure => [2]
  | .missingCredential => [5]
  | .emptyModelResponse => [1]
  | .unparseableOutput => [1]
  | .pdfFailure => [3, 4]

/-! ### Credential resolution (`tailor_cv.py` `load_api_key`) -/

/-- Python truthiness of an optional string (`if explicit_key:`,
`if env_key:`): present and nonempty. -/
def pyTruthyStr : Option String → Bool
  | none => false
  | some s => !(s == "")

/-- `tailor_cv.py` `load_api_key` (lines 31–40). `explicit_key` is the
`--api-key` argument, `key_file` the `--api-key-file` path (a `Path` is
always truthy, so only `None` fails the first half of
`key_file and key_file.exists()`), `fs` maps a path to its contents when
the file exists, and `env_key` is `os.getenv("OPENAI_API_KEY")`. The
error is `sys.exit(3)`. -/
def load_api_key (explicit_key key_file : Option String)
    (fs : String → Option String) (env_key : Option String) : Except Nat String :=
  if pyTruthyStr explicit_key then Except.ok (explicit_key.getD "")
  else if key_file.isSome && (fs (key_file.getD "")).isSome then
    Except.ok (pyStrip ((fs (key_file.getD "")).getD ""))
  else if pyTruthyStr env_key then Except.ok (env_key.getD "")
  else Except.error 3

/-! ## Lemmas about the structural cleaner -/

/-- Cleaning filters a container's own paragraph children by
`is_effectively_empty`. -/
theorem levelParas_cleanBlocks (bs : List Block) :
    levelParas (cleanBlocks bs) = (levelParas bs).filter (fun p => !is_effectively_empty p) := by
  induction bs with
  | nil => simp [cleanBlocks, levelParas]
  | cons b bs ih =>
    cases b with
    | para p =>
      by_cases h : is_effectively_empty p
      · simp [cleanBlocks, h, levelParas, ih]
      · simp [cleanBlocks, h, levelParas, ih]
    | table rows => simp [cleanBlocks, levelParas, ih]

mutual

/-- Cleaning filters the paragraphs reached through tables. -/
theorem iterTables_cleanBlocks : ∀ bs : List Block,
    iterTables (cleanBlocks bs) = (iterTables bs).filter (fun p => !is_effectively_empty p)
  | [] => by simp [cleanBlocks, iterTables]
  | Block.para p :: bs => by
      by_cases h : is_effectively_empty p
      · simp [cleanBlocks, h, iterTables, iterTables_cleanBlocks bs]
      · simp [cleanBlocks, h, iterTables, iterTables_cleanBlocks bs]
  | Block.table rows :: bs => by
      simp [cleanBlocks, iterTables, iterRows_cleanTable rows, iterTables_cleanBlocks bs,
        List.filter_append]
termination_by bs => (sizeOf bs, 0)

/-- Cleaning filters the paragraphs of a table's rows. -/
theorem iterRows_cleanTable : ∀ rows : List (List (List Block)),
    iterRows (cleanTable rows) = (iterRows rows).filter (fun p => !is_effectively_empty p)
  | [] => by simp [cleanTable, iterRows]
  | row :: rows => by
      simp [cleanTable, iterRows, iterCells_cleanRow row, iterRows_cleanTable rows,
        List.filter_append]
termination_by rows => (sizeOf rows, 0)

/-- Cleaning filters the paragraphs of a row's cells. -/
theorem iterCells_cleanRow : ∀ cells : List (List Block),
    iterCells (cleanRow cells) = (iterCells cells).filter (fun p => !is_effectively_empty p)
  | [] => by simp [cleanRow, iterCells]
  | cell :: cells => by
      simp [cleanRow, iterCells, iter_paragraphs_cleanBlocks cell, iterCells_cleanRow cells,
        List.filter_append]
termination_by cells => (sizeOf cells, 0)

/-- Cleaning filters the full paragraph enumeration by
`is_effectively_empty`: exactly the effectively-empty paragraphs
disappear, everything else stays in order. -/
theorem iter_paragraphs_cleanBlocks : ∀ bs : List Block,
    iter_paragraphs (cleanBlocks bs) = (iter_paragraphs bs).filter (fun p => !is_effectively_empty p)
  | bs => by
      simp [iter_paragraphs, levelParas_cleanBlocks bs, iterTables_cleanBlocks bs,
        List.filter_append]
termination_by bs => (sizeOf bs, 1)

end

mutual

/-- Cleaning a cleaned container changes nothing. -/
theorem cleanBlocks_idem : ∀ bs : List Block, cleanBlocks (cleanBlocks bs) = cleanBlocks bs
  | [] => by simp [cleanBlocks]
  | Block.para p :: bs => by
      by_cases h : is_effectively_empty p
      · simp [cleanBlocks, h, cleanBlocks_idem bs]
      · simp [cleanBlocks, h, cleanBlocks_idem bs]
  | Block.table rows :: bs => by
      simp [cleanBlocks, cleanTable_idem rows, cleanBlocks_idem bs]

/-- Cleaning a cleaned table changes nothing. -/
theorem cleanTable_idem : ∀ rows : List (List (List Block)),
    cleanTable (cleanTable rows) = cleanTable rows
  | [] => by simp [cleanTable]
  | row :: rows => by simp [cleanTable, cleanRow_idem row, cleanTable_idem rows]

/-- Cleaning a cleaned row changes nothing. -/
theorem cleanRow_idem : ∀ cells : List (List Block),
    cleanRow (cleanRow cells) = cleanRow cells
  | [] => by simp [cleanRow]
  | cell :: cells => by simp [cleanRow, cleanBlocks_idem cell, cleanRow_idem cells]

end

/-! ## Claims about the structural cleaner -/

/-- C1: every paragraph carrying a section-break property or at least one
page/column-break marker survives cleaning with exactly its original
multiplicity in the paragraph enumeration, whatever its text; and a blank
paragraph whose break markers are all of other kinds (e.g. line breaks)
is not protected — it is deleted. -/
theorem clean_keeps_break_paragraphs :
    (∀ (bs : List Block) (p : Paragraph),
        has_section_break p = true ∨ has_page_or_column_break p = true →
        countPara p (cleanBlocks bs) = countPara p bs)
    ∧ (∀ (text : String) (brs : List (Option String)),
        pyStrip text = "" → (∀ t ∈ brs, is_page_or_column t = false) →
        cleanBlocks [Block.para ⟨text, none, brs⟩] = []) := by
  constructor
  · intro bs p hp
    unfold countPara
    rw [iter_paragraphs_cleanBlocks]
    have hne : (!is_effectively_empty p) = true := by
      rcases hp with h | h <;> simp [is_effectively_empty, h]
    exact List.count_filter hne
  · intro text brs htext hbrs
    have hany : brs.any is_page_or_column = false := by
      rw [List.any_eq_false]
      intro t ht
      simp [hbrs t ht]
    have hempty : is_effectively_empty ⟨text, none, brs⟩ = true := by
      simp [is_effectively_empty, has_section_break, has_page_or_column_break, htext, hany]
    simp [cleanBlocks, hempty]

/-- Witness for C1 at a concrete document: a blank paragraph carrying a
section break is counted the same before and after cleaning. -/
theorem clean_keeps_break_paragraphs_witness :
    countPara ⟨"", some ⟨some ()⟩, []⟩
        (cleanBlocks [Block.para ⟨"", some ⟨some ()⟩, []⟩, Block.para ⟨"", none, []⟩]) =
      countPara ⟨"", some ⟨some ()⟩, []⟩
        [Block.para ⟨"", some ⟨some ()⟩, []⟩, Block.para ⟨"", none, []⟩] :=
  clean_keeps_break_paragraphs.1 _ _ (Or.inl rfl)

/-- C2: every paragraph whose stripped text is empty and which carries
neither a section break nor a page/column-break marker is absent from the
cleaned tree — at any table nesting depth. -/
theorem clean_removes_blank_paragraphs :
    ∀ (bs : List Block) (p : Paragraph),
      pyStrip p.text = "" →
      has_section_break p = false →
      has_page_or_column_break p = false →
      countPara p (cleanBlocks bs) = 0 := by
  intro bs p h1 h2 h3
  have he : is_effectively_empty p = true := by
    simp [is_effectively_empty, h1, h2, h3]
  unfold countPara
  rw [iter_paragraphs_cleanBlocks]
  refine List.count_eq_zero.mpr ?_
  intro hmem
  rw [List.mem_filter] at hmem
  simp [he] at hmem

/-- Witness for C2: a blank paragraph nested three tables deep (with only
a line-break marker) is gone after cleaning. -/
theorem clean_removes_blank_paragraphs_witness :
    countPara ⟨" ", none, [some "textWrapping"]⟩
      (cleanBlocks
        [Block.table [[[Block.table [[[Block.table
          [[[Block.para ⟨" ", none, [some "textWrapping"]⟩]]]]]]]]]]) = 0 :=
  clean_removes_blank_paragraphs _ _ rfl rfl rfl

/-- C3: the structural cleanup is idempotent — cleaning a cleaned
document tree is the identity. -/
theorem clean_idempotent : ∀ bs : List Block, cleanBlocks (cleanBlocks bs) = cleanBlocks bs :=
  cleanBlocks_idem

/-! ## Lemmas about the substring scan -/

/-- A substring present in `s` is present in `a ++ s`. -/
theorem hasSubstrAux_append_left (pat a : List Char) :
    ∀ s : List Char, hasSubstrAux pat s = true → hasSubstrAux pat (a ++ s) = true := by
  induction a with
  | nil => intro s h; simpa using h
  | cons c a ih => intro s h; simp [hasSubstrAux, ih s h]

/-- A string occurs in itself followed by anything. -/
theorem hasSubstrAux_self_append (pat b : List Char) :
    hasSubstrAux pat (pat ++ b) = true := by
  cases pat with
  | nil =>
    cases b with
    | nil => rfl
    | cons c bs => simp [hasSubstrAux]
  | cons pc pcs => simp [hasSubstrAux, List.isPrefixOf_iff_prefix, List.prefix_append]

/-! ## Claims about schema coercion -/

/-- Counterexample to C4 as stated: on the fenced model output carrying a
`json` language tag, the single repair pass strips only backtick
characters, so the tag survives and the retry parse fails too — coercion
ends in the exit-5 diagnostic instead of succeeding. -/
theorem coerce_fenced_json_tag_fails :
    coerce_tailor "```json\n\x7b\"summary\":\"x\"\x7d\n```" =
        Except.error ⟨5, "Model did not return valid JSON. Raw output:\n ```json\n\x7b\"summary\":\"x\"\x7d\n```"⟩
      ∧ ∀ j : Json, coerce_tailor "```json\n\x7b\"summary\":\"x\"\x7d\n```" ≠ Except.ok j :=
  ⟨rfl, fun _ h => Except.noConfusion h⟩

/-- C4 amended: for a fenced JSON object without a language tag the
repair pass does succeed and yields the record; with the `json` tag both
coercion routines fail (the tag is not stripped). -/
theorem coerce_fence_no_tag_succeeds :
    coerce_tailor "```\n\x7b\"summary\":\"x\"\x7d\n```" =
        Except.ok (Json.obj [("summary", Json.str "x")])
      ∧ coerce_linkedin "```\n\x7b\"summary\":\"x\"\x7d\n```" =
        Except.ok (Json.obj [("summary", Json.str "x")])
      ∧ coerce_linkedin "```json\n\x7b\"summary\":\"x\"\x7d\n```" =
        Except.error "json\n\x7b\"summary\":\"x\"\x7d\n" :=
  ⟨rfl, rfl, rfl⟩

/-- Counterexample to C5 as stated: in `update_from_linkedin.py` the
second parse failure raises an uncaught `JSONDecodeError` over the
*cleaned* text; for the doubly-unparseable output `` `{not json `` the
surfaced text is the cleaned `{not json`, which does not contain the
original raw output. -/
theorem coerce_linkedin_diagnostic_lacks_raw :
    coerce_linkedin "`\x7bnot json" = Except.error "\x7bnot json"
      ∧ containsSubstr "\x7bnot json" "`\x7bnot json" = false :=
  ⟨rfl, by decide⟩

/-- C5 amended: for every model output that fails both the direct parse
and the backtick-stripped retry, `tailor_cv.py` fails with `sys.exit(5)`
and a diagnostic containing the original unmodified output (never the
cleaned text), while `update_from_linkedin.py` fails with an uncaught
`JSONDecodeError` over the cleaned text. -/
theorem unparseable_diagnostic_contains_raw :
    ∀ s : String,
      (json_loads s).isSome = false →
      (json_loads (stripBackticks (pyStrip s))).isSome = false →
      coerce_tailor s = Except.error ⟨5, unparseable_diagnostic s⟩
        ∧ containsSubstr (unparseable_diagnostic s) s = true
        ∧ coerce_linkedin s = Except.error (stripBackticks (pyStrip s)) := by
  intro s h1 h2
  have h1' : json_loads s = none := by
    cases hj : json_loads s with
    | none => rfl
    | some v => simp [hj] at h1
  have h2' : json_loads (stripBackticks (pyStrip s)) = none := by
    cases hj : json_loads (stripBackticks (pyStrip s)) with
    | none => rfl
    | some v => simp [hj] at h2
  refine ⟨?_, ?_, ?_⟩
  · simp [coerce_tailor, h1', h2']
  · show hasSubstrAux s.data (unparseable_diagnostic s).data = true
    have h0 : hasSubstrAux s.data (s.data ++ []) = true := hasSubstrAux_self_append s.data []
    rw [List.append_nil] at h0
    simpa [unparseable_diagnostic] using
      hasSubstrAux_append_left s.data ("Model did not return valid JSON. Raw output:\n ").data s.data h0
  · simp [coerce_linkedin, h1', h2']

/-- Witness for C5 amended at the spec's own example `\x7bnot json`. -/
theorem unparseable_diagnostic_contains_raw_witness :
    coerce_tailor "\x7bnot json" = Except.error ⟨5, unparseable_diagnostic "\x7bnot json"⟩
      ∧ containsSubstr (unparseable_diagnostic "\x7bnot json") "\x7bnot json" = true
      ∧ coerce_linkedin "\x7bnot json" = Except.error (stripBackticks (pyStrip "\x7bnot json")) :=
  unparseable_diagnostic_contains_raw "\x7bnot json" (by decide) (by decide)

/-! ## Lemmas about `str.replace` -/

/-- `replaceFuel` does not depend on the fuel once the fuel covers the
input length. -/
theorem replaceFuel_fuel_irrel (pat rep : List Char) :
    ∀ fuel fuel' (s : List Char), s.length ≤ fuel → s.length ≤ fuel' →
      replaceFuel pat rep fuel s = replaceFuel pat rep fuel' s := by
  intro fuel
  induction fuel with
  | zero =>
    intro fuel' s hs _
    have hnil : s = [] := List.length_eq_zero.mp (Nat.le_zero.mp hs)
    subst hnil
    cases fuel' <;> rfl
  | succ fuel ih =>
    intro fuel' s hs hs'
    cases s with
    | nil => cases fuel' <;> rfl
    | cons c rest =>
      cases fuel' with
      | zero => simp at hs'
      | succ fuel' =>
        simp only [List.length_cons, Nat.add_le_add_iff_right] at hs hs'
        cases hb : (pat.isPrefixOf (c :: rest) && !pat.isEmpty) with
        | true =>
          have hplen : 1 ≤ pat.length := by
            rcases pat with _ | ⟨pc, pcs⟩
            · simp at hb
            · simp
          have hdrop : (List.drop pat.length (c :: rest)).length ≤ fuel := by
            simp only [List.length_drop, List.length_cons]
            omega
          have hdrop' : (List.drop pat.length (c :: rest)).length ≤ fuel' := by
            simp only [List.length_drop, List.length_cons]
            omega
          simp only [replaceFuel, hb]
          rw [ih fuel' _ hdrop hdrop']
          simp
        | false =>
          simp only [replaceFuel, hb]
          rw [ih fuel' rest hs hs']
          simp

/-- If the pattern occurs nowhere in the input, replacement is the
identity. -/
theorem replace_of_not_contains (pat rep : List Char) :
    ∀ (fuel : Nat) (s : List Char), hasSubstrAux pat s = false →
      replaceFuel pat rep fuel s = s := by
  intro fuel
  induction fuel with
  | zero => intro s _; rfl
  | succ fuel ih =>
    intro s h
    cases s with
    | nil => rfl
    | cons c rest =>
      simp only [hasSubstrAux, Bool.or_eq_false_iff] at h
      obtain ⟨hpre, hrest⟩ := h
      simp [replaceFuel, hpre, ih rest hrest]

/-- Replacement at the first occurrence: if the pattern starts at no
position inside `a`, replacing in `a ++ pat ++ b` yields `a`, the
replacement, and the replacement of the rest. -/
theorem replace_decompose (pat rep : List Char) (hpat : pat ≠ []) :
    ∀ a b : List Char,
      (∀ i < a.length, pat.isPrefixOf (List.drop i (a ++ pat ++ b)) = false) →
      listReplace (a ++ pat ++ b) pat rep = a ++ rep ++ listReplace b pat rep := by
  intro a
  induction a with
  | nil =>
    intro b _
    rcases pat with _ | ⟨pc, pcs⟩
    · exact absurd rfl hpat
    · simp only [List.nil_append]
      rw [List.cons_append, listReplace, List.length_cons, replaceFuel]
      have hpre : ((pc :: pcs).isPrefixOf (pc :: (pcs ++ b))) = true := by
        have hp : (pc :: pcs) <+: ((pc :: pcs) ++ b) := List.prefix_append _ _
        rw [List.cons_append] at hp
        exact List.isPrefixOf_iff_prefix.mpr hp
      rw [if_pos (by rw [hpre]; rfl)]
      have hdrop : List.drop (pc :: pcs).length (pc :: (pcs ++ b)) = b := by
        have hd := List.drop_left (pc :: pcs) b
        rw [List.cons_append] at hd
        exact hd
      rw [hdrop]
      congr 1
      rw [listReplace]
      exact replaceFuel_fuel_irrel _ _ _ _ b (by simp only [List.length_append]; omega)
        (le_refl _)
  | cons c a ih =>
    intro b hno
    have hshape : (c :: a) ++ pat ++ b = c :: (a ++ pat ++ b) := by
      rw [List.cons_append, List.cons_append]
    have h00 := hno 0 (by simp)
    rw [List.drop_zero, hshape] at h00
    show listReplace ((c :: a) ++ pat ++ b) pat rep = (c :: a) ++ rep ++ listReplace b pat rep
    rw [hshape, listReplace, List.length_cons, replaceFuel]
    rw [if_neg (by simp only [h00, Bool.false_and]; exact Bool.false_ne_true)]
    have hrhs : (c :: a) ++ rep ++ listReplace b pat rep =
        c :: (a ++ rep ++ listReplace b pat rep) := by
      rw [List.cons_append, List.cons_append]
    rw [hrhs]
    simp only [List.cons.injEq, true_and]
    have hshift : ∀ i < a.length, pat.isPrefixOf (List.drop i (a ++ pat ++ b)) = false := by
      intro i hi
      have h01 := hno (i + 1) (by simp only [List.length_cons]; omega)
      rw [hshape, List.drop_succ_cons] at h01
      exact h01
    exact ih b hshift

/-- `listReplace` form of `replace_of_not_contains`. -/
theorem listReplace_of_not_contains (pat rep s : List Char)
    (h : hasSubstrAux pat s = false) : listReplace s pat rep = s :=
  replace_of_not_contains pat rep s.length s h

/-! ## Claims about prompt assembly -/

/-- Counterexample to C6 as stated: a template containing both
recognised section markers but no placeholder token is returned
unchanged, so the job-spec text does not appear in the output at all. -/
theorem build_prompt_markers_without_placeholders :
    containsSubstr (markerA ++ "\n" ++ markerB) markerA = true
      ∧ containsSubstr (markerA ++ "\n" ++ markerB) markerB = true
      ∧ build_prompt (markerA ++ "\n" ++ markerB) "JOBX" "CVX" = markerA ++ "\n" ++ markerB
      ∧ containsSubstr (build_prompt (markerA ++ "\n" ++ markerB) "JOBX" "CVX") "JOBX" = false := by
  refine ⟨by decide, by decide, by decide, by decide⟩

/-- C6 amended: when the template contains both markers and exactly one
occurrence of each placeholder token (the placeholders occur nowhere
else, and the substituted job-spec text introduces no further
occurrence), `build_prompt` returns the template with each placeholder
replaced by its payload — both inputs appear verbatim at the marker
positions and no placeholder token remains. -/
theorem build_prompt_substitutes (SA SB SC job_spec cv_md : String)
    (hmA : containsSubstr (SA ++ placeholderJobSpec ++ SB ++ placeholderCv ++ SC) markerA = true)
    (hmB : containsSubstr (SA ++ placeholderJobSpec ++ SB ++ placeholderCv ++ SC) markerB = true)
    (h1 : ∀ i < SA.data.length,
      placeholderJobSpec.data.isPrefixOf
        (List.drop i (SA.data ++ placeholderJobSpec.data ++
          (SB.data ++ placeholderCv.data ++ SC.data))) = false)
    (h2 : hasSubstrAux placeholderJobSpec.data
      (SB.data ++ placeholderCv.data ++ SC.data) = false)
    (h3 : ∀ i < (SA.data ++ job_spec.data ++ SB.data).length,
      placeholderCv.data.isPrefixOf
        (List.drop i ((SA.data ++ job_spec.data ++ SB.data) ++
          placeholderCv.data ++ SC.data)) = false)
    (h4 : hasSubstrAux placeholderCv.data SC.data = false) :
    build_prompt (SA ++ placeholderJobSpec ++ SB ++ placeholderCv ++ SC) job_spec cv_md =
      SA ++ job_spec ++ SB ++ cv_md ++ SC := by
  have hbranch : (containsSubstr (SA ++ placeholderJobSpec ++ SB ++ placeholderCv ++ SC) markerA &&
      containsSubstr (SA ++ placeholderJobSpec ++ SB ++ placeholderCv ++ SC) markerB) = true := by
    rw [hmA, hmB]; rfl
  unfold build_prompt
  rw [if_pos hbranch]
  have hinner : (str_replace (SA ++ placeholderJobSpec ++ SB ++ placeholderCv ++ SC)
      placeholderJobSpec job_spec).data =
      SA.data ++ job_spec.data ++ (SB.data ++ placeholderCv.data ++ SC.data) := by
    show listReplace (SA ++ placeholderJobSpec ++ SB ++ placeholderCv ++ SC).data
        placeholderJobSpec.data job_spec.data = _
    have htempl : (SA ++ placeholderJobSpec ++ SB ++ placeholderCv ++ SC).data =
        SA.data ++ placeholderJobSpec.data ++ (SB.data ++ placeholderCv.data ++ SC.data) := by
      simp [List.append_assoc]
    rw [htempl,
      replace_decompose placeholderJobSpec.data job_spec.data (by decide) SA.data
        (SB.data ++ placeholderCv.data ++ SC.data) h1,
      listReplace_of_not_contains placeholderJobSpec.data job_spec.data _ h2]
  have houter : (str_replace (str_replace (SA ++ placeholderJobSpec ++ SB ++ placeholderCv ++ SC)
      placeholderJobSpec job_spec) placeholderCv cv_md).data =
      (SA.data ++ job_spec.data ++ SB.data) ++ cv_md.data ++ SC.data := by
    show listReplace (str_replace (SA ++ placeholderJobSpec ++ SB ++ placeholderCv ++ SC)
        placeholderJobSpec job_spec).data placeholderCv.data cv_md.data = _
    have halign : (str_replace (SA ++ placeholderJobSpec ++ SB ++ placeholderCv ++ SC)
        placeholderJobSpec job_spec).data =
        (SA.data ++ job_spec.data ++ SB.data) ++ placeholderCv.data ++ SC.data := by
      rw [hinner]; simp [List.append_assoc]
    rw [halign,
      replace_decompose placeholderCv.data cv_md.data (by decide)
        (SA.data ++ job_spec.data ++ SB.data) SC.data h3,
      listReplace_of_not_contains placeholderCv.data cv_md.data _ h4]
  apply String.ext
  rw [houter]
  simp [List.append_assoc]

/-- Witness for C6 amended on a concrete two-placeholder template. -/
theorem build_prompt_substitutes_witness :
    build_prompt ("Prompt.\n===== INPUT A: JOB_SPEC =====\n" ++ placeholderJobSpec ++
        ("\n===== INPUT B: CV_MD =====\n" ++ placeholderCv ++ "\nEnd.")) "JOB TEXT" "CV TEXT" =
      "Prompt.\n===== INPUT A: JOB_SPEC =====\n" ++ "JOB TEXT" ++
        ("\n===== INPUT B: CV_MD =====\n" ++ "CV TEXT" ++ "\nEnd.") := by
  have h := build_prompt_substitutes "Prompt.\n===== INPUT A: JOB_SPEC =====\n"
    "\n===== INPUT B: CV_MD =====\n" "\nEnd." "JOB TEXT" "CV TEXT"
    (by decide) (by decide) (by decide) (by decide) (by decide) (by decide)
  simpa using h

/-- C7: whenever at least one recognised marker is missing from the
template, `build_prompt` appends both inputs after the template, each
between its fixed begin/end sentinel lines, and hence the output contains
both inputs in full. -/
theorem build_prompt_fallback (template job_spec cv_md : String)
    (h : (containsSubstr template markerA && containsSubstr template markerB) = false) :
    build_prompt template job_spec cv_md =
      template ++ "\n\n===== INPUT A: JOB_SPEC =====\n" ++ job_spec ++
        "\n===== END INPUT A =====\n\n===== INPUT B: CV_MD =====\n" ++ cv_md ++
        "\n===== END INPUT B =====\n"
    ∧ containsSubstr (build_prompt template job_spec cv_md) job_spec = true
    ∧ containsSubstr (build_prompt template job_spec cv_md) cv_md = true := by
  have heq : build_prompt template job_spec cv_md =
      template ++ "\n\n===== INPUT A: JOB_SPEC =====\n" ++ job_spec ++
        "\n===== END INPUT A =====\n\n===== INPUT B: CV_MD =====\n" ++ cv_md ++
        "\n===== END INPUT B =====\n" := by
    unfold build_prompt
    rw [if_neg]
    simp [h]
  refine ⟨heq, ?_, ?_⟩
  · rw [heq]
    show hasSubstrAux job_spec.data _ = true
    simp only [String.data_append, List.append_assoc]
    exact hasSubstrAux_append_left _ _ _
      (hasSubstrAux_append_left _ _ _ (hasSubstrAux_self_append _ _))
  · rw [heq]
    show hasSubstrAux cv_md.data _ = true
    simp only [String.data_append, List.append_assoc]
    exact hasSubstrAux_append_left _ _ _
      (hasSubstrAux_append_left _ _ _
        (hasSubstrAux_append_left _ _ _
          (hasSubstrAux_append_left _ _ _ (hasSubstrAux_self_append _ _))))

/-- Witness for C7 on a markerless template. -/
theorem build_prompt_fallback_witness :
    build_prompt "Do the thing." "JOB TEXT" "CV TEXT" =
      "Do the thing." ++ "\n\n===== INPUT A: JOB_SPEC =====\n" ++ "JOB TEXT" ++
        "\n===== END INPUT A =====\n\n===== INPUT B: CV_MD =====\n" ++ "CV TEXT" ++
        "\n===== END INPUT B =====\n"
    ∧ containsSubstr (build_prompt "Do the thing." "JOB TEXT" "CV TEXT") "JOB TEXT" = true
    ∧ containsSubstr (build_prompt "Do the thing." "JOB TEXT" "CV TEXT") "CV TEXT" = true :=
  build_prompt_fallback "Do the thing." "JOB TEXT" "CV TEXT" (by decide)

/-! ## Claims about the timestamped persister -/

/-- Exact output length of `Nat.toDigitsCore` in base 10: one character
per decimal digit, plus the accumulator. -/
theorem toDigitsCore_length_eq :
    ∀ (f n : Nat) (acc : List Char), n < f →
      (Nat.toDigitsCore 10 f n acc).length = Nat.log 10 n + 1 + acc.length := by
  intro f
  induction f with
  | zero => intro n acc h; exact absurd h (Nat.not_lt_zero n)
  | succ f ih =>
    intro n acc h
    simp only [Nat.toDigitsCore]
    by_cases h10 : n / 10 = 0
    · rw [if_pos h10]
      have hn : n < 10 := (Nat.div_eq_zero_iff (by norm_num)).mp h10
      have hlog : Nat.log 10 n = 0 := Nat.log_eq_zero_iff.mpr (Or.inl hn)
      simp [hlog]
      omega
    · rw [if_neg h10]
      have hnten : 10 ≤ n := by
        by_contra hc
        push_neg at hc
        exact h10 (Nat.div_eq_of_lt hc)
      have hdiv_lt : n / 10 < f := by
        have h1 : n / 10 < n := Nat.div_lt_self (by omega) (by norm_num)
        omega
      rw [ih (n / 10) _ hdiv_lt]
      have hlog : Nat.log 10 (n / 10) = Nat.log 10 n - 1 := Nat.log_div_base 10 n
      have hpos : 0 < Nat.log 10 n := Nat.log_pos (by norm_num) hnten
      simp only [List.length_cons]
      omega

/-- `toString` on a natural number prints one character per decimal
digit. -/
theorem length_toString_nat (n : Nat) : (toString n).length = Nat.log 10 n + 1 := by
  show (Nat.toDigitsCore 10 (n + 1) n []).length = _
  rw [toDigitsCore_length_eq (n + 1) n [] (Nat.lt_succ_self n)]
  simp

/-- `pad2` always prints two characters for values below 100. -/
theorem pad2_data_length : ∀ n < 100, (pad2 n).data.length = 2 := by
  intro n h
  show (pad2 n).length = 2
  unfold pad2
  by_cases h10 : n < 10
  · rw [if_pos h10, String.length_append, length_toString_nat,
      Nat.log_eq_zero_iff.mpr (Or.inl h10)]
    rfl
  · have e1 : (10 : Nat) ^ 1 = 10 := by norm_num
    have e2 : (10 : Nat) ^ (1 + 1) = 100 := by norm_num
    rw [if_neg h10, length_toString_nat,
      Nat.log_eq_of_pow_le_of_lt_pow (e1 ▸ Nat.not_lt.mp h10) (e2 ▸ h)]

/-- `pad4` always prints four characters for values below 10000. -/
theorem pad4_data_length : ∀ n < 10000, (pad4 n).data.length = 4 := by
  intro n h
  show (pad4 n).length = 4
  unfold pad4
  by_cases h10 : n < 10
  · rw [if_pos h10, String.length_append, length_toString_nat,
      Nat.log_eq_zero_iff.mpr (Or.inl h10)]
    rfl
  · rw [if_neg h10]
    by_cases h100 : n < 100
    · have e1 : (10 : Nat) ^ 1 = 10 := by norm_num
      have e2 : (10 : Nat) ^ (1 + 1) = 100 := by norm_num
      rw [if_pos h100, String.length_append, length_toString_nat,
        Nat.log_eq_of_pow_le_of_lt_pow (e1 ▸ Nat.not_lt.mp h10) (e2 ▸ h100)]
      rfl
    · rw [if_neg h100]
      by_cases h1000 : n < 1000
      · have e1 : (10 : Nat) ^ 2 = 100 := by norm_num
        have e2 : (10 : Nat) ^ (2 + 1) = 1000 := by norm_num
        rw [if_pos h1000, String.length_append, length_toString_nat,
          Nat.log_eq_of_pow_le_of_lt_pow (e1 ▸ Nat.not_lt.mp h100) (e2 ▸ h1000)]
        rfl
      · have e1 : (10 : Nat) ^ 3 = 1000 := by norm_num
        have e2 : (10 : Nat) ^ (3 + 1) = 10000 := by norm_num
        rw [if_neg h1000, length_toString_nat,
          Nat.log_eq_of_pow_le_of_lt_pow (e1 ▸ Nat.not_lt.mp h1000) (e2 ▸ h)]

/-- C8: the persister names the file `CV_Customized_<stamp>.docx`, where
the stamp formats the Europe/London clock reading when timezone data is
available and the naive UTC reading otherwise (instead of failing); for
in-range fields the stamp is the 15-character `YYYYMMDD-HHMMSS`, with the
separator at position 8. -/
theorem persist_timestamped_filename :
    ∀ (zoneinfo_available : Bool) (londonNow utcNow : PlainDateTime),
      out_file zoneinfo_available londonNow utcNow =
        "CV_Customized_" ++ strftime_stamp (if zoneinfo_available then londonNow else utcNow) ++
          ".docx"
      ∧ (zoneinfo_available = false →
          out_file zoneinfo_available londonNow utcNow =
            "CV_Customized_" ++ strftime_stamp utcNow ++ ".docx")
      ∧ (londonNow.year < 10000 → londonNow.month < 100 → londonNow.day < 100 →
          londonNow.hour < 100 → londonNow.minute < 100 → londonNow.second < 100 →
          (strftime_stamp londonNow).length = 15
            ∧ (strftime_stamp londonNow).data[8]? = some '-') := by
  intro ok london utc
  refine ⟨rfl, fun hok => by rw [hok]; rfl, fun hy hmo hd hh hmi hs => ?_⟩
  have hstamp : (strftime_stamp london).data =
      (pad4 london.year ++ pad2 london.month ++ pad2 london.day).data ++
        ('-' :: (pad2 london.hour ++ pad2 london.minute ++ pad2 london.second).data) := by
    simp [strftime_stamp, List.append_assoc]
  have hA : ((pad4 london.year ++ pad2 london.month ++ pad2 london.day).data).length = 8 := by
    simp only [String.data_append, List.length_append,
      pad4_data_length london.year hy, pad2_data_length london.month hmo,
      pad2_data_length london.day hd]
  constructor
  · show (strftime_stamp london).data.length = 15
    rw [hstamp]
    simp only [List.length_append, List.length_cons, String.data_append,
      pad4_data_length london.year hy, pad2_data_length london.month hmo,
      pad2_data_length london.day hd, pad2_data_length london.hour hh,
      pad2_data_length london.minute hmi, pad2_data_length london.second hs]
  · rw [hstamp, List.getElem?_append_right (by omega)]
    have l1 : (pad4 london.year).length = 4 := pad4_data_length london.year hy
    have l2 : (pad2 london.month).length = 2 := pad2_data_length london.month hmo
    have l3 : (pad2 london.day).length = 2 := pad2_data_length london.day hd
    simp [l1, l2, l3]

/-- Witness for C8 with timezone data unavailable: the UTC reading is
used and the stamp has the fixed shape. -/
theorem persist_timestamped_filename_witness :
    out_file false ⟨2025, 8, 11, 19, 28, 45⟩ ⟨2025, 8, 11, 18, 28, 45⟩ =
        "CV_Customized_" ++ strftime_stamp ⟨2025, 8, 11, 18, 28, 45⟩ ++ ".docx"
      ∧ (strftime_stamp ⟨2025, 8, 11, 19, 28, 45⟩).length = 15 := by
  have h := persist_timestamped_filename false ⟨2025, 8, 11, 19, 28, 45⟩ ⟨2025, 8, 11, 18, 28, 45⟩
  exact ⟨h.2.1 rfl,
    (h.2.2 (by decide) (by decide) (by decide) (by decide) (by decide) (by decide)).1⟩

/-! ## Claims about process exit codes -/

/-- Counterexample to C9 as stated: in `update_from_linkedin.py` the
read-failure and unparseable-output classes both end the run with status
1 (the latter through an uncaught `JSONDecodeError`), and the
missing-credential class exits 3 in one script but 5 in the other, so
failure classes do not have their own distinct codes. -/
theorem linkedin_exit_codes_collide :
    FailureClass.readFailure ≠ FailureClass.unparseableOutput
      ∧ (1 : Nat) ∈ linkedin_exit_codes FailureClass.readFailure
      ∧ (1 : Nat) ∈ linkedin_exit_codes FailureClass.unparseableOutput
      ∧ tailor_exit_codes FailureClass.missingCredential = [3]
      ∧ linkedin_exit_codes FailureClass.missingCredential = [5]
      ∧ (3 : Nat) ∈ tailor_exit_codes FailureClass.missingCredential
      ∧ (3 : Nat) ∈ linkedin_exit_codes FailureClass.pdfFailure := by
  refine ⟨by decide, by decide, by decide, rfl, rfl, by decide, by decide⟩

/-- C9 amended: within `tailor_cv.py` the five failure classes that can
occur have pairwise disjoint exit codes (1–5), and within
`update_from_linkedin.py` the classes that exit through an explicit
`sys.exit` (read, fetch, credential, PDF) have pairwise disjoint codes;
the collisions are the uncaught-exception classes of
`update_from_linkedin.py` and the numbering across the two scripts. -/
theorem tailor_exit_codes_distinct :
    (∀ c1 c2 : FailureClass, c1 ≠ c2 →
        ∀ n ∈ tailor_exit_codes c1, n ∉ tailor_exit_codes c2)
      ∧ (∀ c1 c2 : FailureClass,
          c1 ∈ [FailureClass.readFailure, FailureClass.fetchFailure,
            FailureClass.missingCredential, FailureClass.pdfFailure] →
          c2 ∈ [FailureClass.readFailure, FailureClass.fetchFailure,
            FailureClass.missingCredential, FailureClass.pdfFailure] →
          c1 ≠ c2 → ∀ n ∈ linkedin_exit_codes c1, n ∉ linkedin_exit_codes c2) := by
  decide

/-- Witness for C9 amended: the unparseable-output code of `tailor_cv.py`
is not shared by its empty-response class. -/
theorem tailor_exit_codes_distinct_witness :
    (5 : Nat) ∉ tailor_exit_codes FailureClass.emptyModelResponse :=
  tailor_exit_codes_distinct.1 FailureClass.unparseableOutput FailureClass.emptyModelResponse
    (by decide) 5 (by decide)

/-! ## Claims about credential resolution -/

/-- Counterexample to C10 as stated: with `OPENAI_API_KEY` set to the
empty string (and no other source), the code takes the falsy branch and
exits 3 instead of returning the variable's value. -/
theorem load_api_key_empty_env_exits :
    load_api_key none none (fun _ => none) (some "") = Except.error 3
      ∧ (some "" : Option String).isSome = true
      ∧ load_api_key none none (fun _ => none) (some "") ≠ Except.ok "" :=
  ⟨rfl, rfl, fun h => Except.noConfusion h⟩

/-- C10 amended: credential resolution precedence — a nonempty explicit
key wins; otherwise a given and existing key file's stripped contents;
otherwise a *nonempty* `OPENAI_API_KEY` value; otherwise `sys.exit(3)`.
(A set-but-empty environment variable, like an empty explicit key, is
falsy in Python and does not count as provided.) -/
theorem load_api_key_precedence :
    ∀ (explicit_key key_file : Option String) (fs : String → Option String)
      (env_key : Option String),
      (∀ k, explicit_key = some k → k ≠ "" →
          load_api_key explicit_key key_file fs env_key = Except.ok k)
      ∧ (pyTruthyStr explicit_key = false →
          ∀ p c, key_file = some p → fs p = some c →
            load_api_key explicit_key key_file fs env_key = Except.ok (pyStrip c))
      ∧ (pyTruthyStr explicit_key = false →
          (key_file.isSome && (fs (key_file.getD "")).isSome) = false →
          ∀ v, env_key = some v → v ≠ "" →
            load_api_key explicit_key key_file fs env_key = Except.ok v)
      ∧ (pyTruthyStr explicit_key = false →
          (key_file.isSome && (fs (key_file.getD "")).isSome) = false →
          pyTruthyStr env_key = false →
          load_api_key explicit_key key_file fs env_key = Except.error 3) := by
  intro ek kf fs env
  refine ⟨?_, ?_, ?_, ?_⟩
  · intro k hk hne
    subst hk
    simp [load_api_key, pyTruthyStr, hne]
  · intro hek p c hp hc
    subst hp
    simp [load_api_key, hek, hc]
  · intro hek hkf v hv hvne
    subst hv
    have henv : pyTruthyStr (some v) = true := by simp [pyTruthyStr, hvne]
    simp [load_api_key, hek, hkf, henv]
  · intro hek hkf henv
    simp [load_api_key, hek, hkf, henv]

/-- Witness for C10: the key-file branch fires when no explicit key is
given, and the contents come back stripped. -/
theorem load_api_key_precedence_witness :
    load_api_key (some "") (some "keyfile") (fun _ => some " sk-123 \n") none =
      Except.ok (pyStrip " sk-123 \n") :=
  (load_api_key_precedence (some "") (some "keyfile") (fun _ => some " sk-123 \n") none).2.1
    rfl "keyfile" " sk-123 \n" rfl rfl

end CVCreator
